import Mathlib

/-!
Verification of the device hot-plug orchestrator of the opi-spdk-bridge
kvm package: PCI bus/slot address allocation, the attach and detach state
machines, the controller-directory lifecycle, and the vfiouser
listener-parameter builder.

The repository snapshot ships the test suite of the kvm package
(pkg/kvm/nvme_test.go) but not the package implementation itself, so the
orchestrator, the bus allocator, the directory manager and the listener
builder are modelled from the specification; the surrounding data model
mirrors the protobuf shapes used by the tests.
-/

namespace OpiSpdkBridge

/-- State of a controller directory on disk: it either does not exist,
exists and is empty, or exists and holds leftover contents (for instance
a transport socket still owned by the hypervisor side). -/
inductive DirState
  | absent
  | empty
  | nonEmpty
  deriving DecidableEq, Repr

/-- Existence check for a controller directory, mirroring the dirExists
helper of the test suite. -/
def dirExists : DirState → Bool
  | .absent => false
  | .empty => true
  | .nonEmpty => true

/-- Modelled from the spec: Release of the Controller Directory Manager
(section 4.2). Removal succeeds (removed = true) when the directory is
absent or empty; a non-empty directory is left in place and reported as
removed = false without a hard error. -/
def releaseDir : DirState → Bool × DirState
  | .absent => (true, .absent)
  | .empty => (true, .absent)
  | .nonEmpty => (false, .nonEmpty)

/-- Error kinds of the orchestrator, one constructor per error value of
the kvm package (errInvalidSubsystem, errNoPcieEndpoint,
errDeviceEndpoint, errFailedToCreateNvmeDir, errMonitorCreation, the
storage-engine stub error, errAddDeviceFailed, errNoController,
errDevicePartiallyDeleted, errDeviceNotDeleted). -/
inductive KvmError
  | invalidSubsystem
  | noPcieEndpoint
  | deviceEndpoint
  | failedToCreateNvmeDir
  | monitorCreation
  | stub
  | addDeviceFailed
  | noController
  | devicePartiallyDeleted
  | deviceNotDeleted
  deriving DecidableEq, Repr

/-- A concrete guest-visible hypervisor device address produced by the
bus allocator: either the raw (pf, vf) passthrough pair or a named
virtual bus together with a slot on it. -/
inductive DeviceLocation
  | passthrough (pf vf : Int)
  | busSlot (bus : String) (slot : Int)
  deriving DecidableEq, Repr

/-- Modelled from the spec: the Bus Allocator (section 4.1), absent from
the snapshot. Fails on a negative physical function; with no configured
buses it passes (pf, vf) through unchanged; otherwise bus index = pf / 32
and slot = pf % 32, failing when the bus index reaches the end of the
configured bus list. -/
def allocateAddress (buses : List String) (pf vf : Int) : Except KvmError DeviceLocation :=
  if pf < 0 then .error .deviceEndpoint
  else if buses.length = 0 then .ok (.passthrough pf vf)
  else if (pf / 32).toNat < buses.length then
    .ok (.busSlot (buses.getD (pf / 32).toNat "") (pf % 32))
  else .error .deviceEndpoint

/-- PCIe endpoint of a controller request, mirroring pb.PciEndpoint. -/
structure PciEndpoint where
  physicalFunction : Int
  virtualFunction : Int
  deriving DecidableEq, Repr

/-- Controller spec, mirroring pb.NvmeControllerSpec: subsystem
reference, optional PCIe endpoint, host-assigned controller id. -/
structure NvmeControllerSpec where
  subsystemId : Option String
  pcieId : Option PciEndpoint
  nvmeControllerId : Int
  deriving DecidableEq, Repr

/-- Controller status, mirroring pb.NvmeControllerStatus. -/
structure NvmeControllerStatus where
  active : Bool
  deriving DecidableEq, Repr

/-- Controller record, mirroring pb.NvmeController. -/
structure NvmeController where
  name : String
  spec : NvmeControllerSpec
  status : NvmeControllerStatus
  deriving DecidableEq, Repr

/-- Subsystem record owned by the external resource store, mirroring
pb.NvmeSubsystem: identity and network-qualified name. -/
structure NvmeSubsystem where
  name : String
  nqn : String
  deriving DecidableEq, Repr

/-- Attach request, mirroring pb.CreateNvmeControllerRequest: a resource
identifier for the new controller and the controller payload. -/
structure CreateNvmeControllerRequest where
  nvmeControllerId : String
  nvmeController : NvmeController
  deriving DecidableEq, Repr

/-- Exact-match lookup in an association-list resource store, modelling
the map reads the orchestrator performs against the external store. -/
def lookupStore {α : Type} (store : List (String × α)) (key : String) : Option α :=
  match store with
  | [] => none
  | (k, v) :: rest => if k = key then some v else lookupStore rest key

/-- Modelled from the spec: canonical resource-name construction for a
controller given a caller-supplied identifier (section 6), the
server.ResourceIDToVolumeName helper used by the tests. -/
def resourceIDToVolumeName (id : String) : String :=
  "//storage.opiproject.org/volumes/" ++ id

/-- Deterministic filesystem join, modelling filepath.Join for the
non-degenerate paths used by the orchestrator. -/
def filepathJoin (dir name : String) : String :=
  dir ++ "/" ++ name

/-- Modelled from the spec: the controller-directory path keyed by the
subsystem resource identifier under the configured base directory
(section 4.2, Path). -/
def controllerDirPath (ctrlrDir sysID : String) : String :=
  filepathJoin ctrlrDir sysID

/-- Characters of the last slash-separated segment of a path, carrying
the segment accumulated so far. -/
def lastSegmentAux : List Char → List Char → List Char
  | [], acc => acc
  | c :: rest, acc =>
    if c = '/' then lastSegmentAux rest [] else lastSegmentAux rest (acc ++ [c])

/-- Last path segment of a resource name, modelling the extraction of a
resource identifier from a canonical resource name. -/
def lastSegment (s : String) : String :=
  String.mk (lastSegmentAux s.data [])

/-- Subsystem resource identifier referenced by a controller, as used to
key the controller directory and the listener target address. -/
def NvmeController.subsystemResourceID (c : NvmeController) : String :=
  lastSegment (c.spec.subsystemId.getD "")

/-- Transport listen address of storage-engine listener parameters,
mirroring the ListenAddress of spdk.NvmfSubsystemAddListenerParams. -/
structure ListenAddress where
  trtype : String
  traddr : String
  deriving DecidableEq, Repr

/-- Storage-engine listener parameters, mirroring
spdk.NvmfSubsystemAddListenerParams. -/
structure NvmfSubsystemAddListenerParams where
  nqn : String
  listenAddress : ListenAddress
  deriving DecidableEq, Repr

/-- The vfiouser subsystem listener, holding the configured base
directory for controller directories. -/
structure VfiouserSubsystemListener where
  ctrlrDir : String
  deriving DecidableEq, Repr

/-- Modelled from the spec: the companion listener-parameter builder
(section 6), absent from the snapshot. It computes for a subsystem the
storage-engine transport-listener parameters: transport type fixed to
the local-socket transport vfiouser and target address equal to the join
of the base directory with the subsystem resource identifier. -/
def VfiouserSubsystemListener.params (l : VfiouserSubsystemListener)
    (c : NvmeController) (nqn : String) : NvmfSubsystemAddListenerParams :=
  { nqn := nqn
    listenAddress :=
      { trtype := "vfiouser"
        traddr := filepathJoin l.ctrlrDir c.subsystemResourceID } }

instance {ε α : Type} [DecidableEq ε] [DecidableEq α] : DecidableEq (Except ε α) := fun a b =>
  match a, b with
  | .error e₁, .error e₂ =>
    if h : e₁ = e₂ then isTrue (congrArg Except.error h)
    else isFalse (fun hc => h (Except.error.inj hc))
  | .error _, .ok _ => isFalse (fun hc => Except.noConfusion hc)
  | .ok _, .error _ => isFalse (fun hc => Except.noConfusion hc)
  | .ok a₁, .ok a₂ =>
    if h : a₁ = a₂ then isTrue (congrArg Except.ok h)
    else isFalse (fun hc => h (Except.ok.inj hc))

/-- Environment of an attach call: the subsystem store, the configured
bus list, and the outcomes of the three external collaborator calls made
after directory reservation (storage-engine registration, monitor-session
open, hypervisor AddDevice). -/
structure AttachEnv where
  subsystems : List (String × NvmeSubsystem)
  buses : List String
  spdkOk : Bool
  monitorOk : Bool
  addDeviceOk : Bool
  deriving DecidableEq, Repr

/-- Observable outcome of an attach call: the response or error, the
controller-directory state after the call, and whether a monitor session
was opened and an AddDevice command issued. -/
structure AttachOutcome where
  result : Except KvmError NvmeController
  dirAfter : DirState
  monitorOpened : Bool
  addDeviceCalled : Bool
  deriving DecidableEq, Repr

/-- Modelled from the spec: the attach state machine of the Hot-Plug
Orchestrator, CreateController (section 4.4), absent from the snapshot.
Steps: resolve the subsystem (InvalidSubsystem), validate the PCIe
endpoint (NoPcieEndpoint), run the bus allocator (InvalidEndpoint),
reserve the controller directory (DirConflict when it already exists),
register with the storage engine (the stub error on failure, rolling the
directory back; this collaborator call is the one exercised by the test
case in which the storage engine fails and the directory must be gone
afterwards), open a monitor session (MonitorCreationFailed, rolling
back), issue AddDevice (AddDeviceFailed, rolling back), confirm, and
answer with the caller-supplied spec, the controller id forced to the
unset sentinel -1, Active set to true and the canonical resource name,
leaving the directory reserved. -/
def createController (env : AttachEnv) (req : CreateNvmeControllerRequest)
    (dir : DirState) : AttachOutcome :=
  match req.nvmeController.spec.subsystemId with
  | none => ⟨.error .invalidSubsystem, dir, false, false⟩
  | some subsysName =>
    match lookupStore env.subsystems subsysName with
    | none => ⟨.error .invalidSubsystem, dir, false, false⟩
    | some _subsys =>
      match req.nvmeController.spec.pcieId with
      | none => ⟨.error .noPcieEndpoint, dir, false, false⟩
      | some pcie =>
        match allocateAddress env.buses pcie.physicalFunction pcie.virtualFunction with
        | .error e => ⟨.error e, dir, false, false⟩
        | .ok _loc =>
          if dirExists dir then ⟨.error .failedToCreateNvmeDir, dir, false, false⟩
          else if env.spdkOk = false then ⟨.error .stub, .absent, false, false⟩
          else if env.monitorOk = false then ⟨.error .monitorCreation, .absent, false, false⟩
          else if env.addDeviceOk = false then ⟨.error .addDeviceFailed, .absent, true, true⟩
          else
            ⟨.ok { name := resourceIDToVolumeName req.nvmeControllerId
                   spec := { req.nvmeController.spec with nvmeControllerId := -1 }
                   status := { active := true } },
             .empty, true, true⟩

/-- Environment of a detach call: the controller store and the outcomes
of the external collaborator calls (monitor-session open, hypervisor
DeleteDevice, storage-engine unregistration). -/
structure DetachEnv where
  controllers : List (String × NvmeController)
  monitorOk : Bool
  deleteDeviceOk : Bool
  spdkOk : Bool
  deriving DecidableEq, Repr

/-- Observable outcome of a detach call: the result, the
controller-directory state after the call, and whether a monitor session
was opened and a DeleteDevice command issued. -/
structure DetachOutcome where
  result : Except KvmError Unit
  dirAfter : DirState
  monitorOpened : Bool
  deleteDeviceCalled : Bool
  deriving DecidableEq, Repr

/-- Modelled from the spec: the detach state machine of the Hot-Plug
Orchestrator, DeleteController (section 4.5), absent from the snapshot.
Steps: resolve the controller by name (NoController), succeed
immediately when the directory no longer exists (idempotent no-op),
open a monitor session (MonitorCreationFailed with state untouched),
then issue DeleteDevice together with the storage-engine unregistration
and attempt a best-effort directory release, classifying the outcome:
DeviceNotDeleted when both collaborators fail, DevicePartiallyDeleted
when one side fails or the directory could not be fully released, and an
empty success when DeleteDevice succeeds, the storage engine agrees and
the directory releases cleanly. -/
def deleteController (env : DetachEnv) (name : String) (dir : DirState) : DetachOutcome :=
  match lookupStore env.controllers name with
  | none => ⟨.error .noController, dir, false, false⟩
  | some _ctrlr =>
    if dirExists dir = false then ⟨.ok (), dir, false, false⟩
    else if env.monitorOk = false then ⟨.error .monitorCreation, dir, false, false⟩
    else
      let rel := releaseDir dir
      if env.deleteDeviceOk = false ∧ env.spdkOk = false then
        ⟨.error .deviceNotDeleted, rel.2, true, true⟩
      else if env.deleteDeviceOk = false ∨ env.spdkOk = false ∨ rel.1 = false then
        ⟨.error .devicePartiallyDeleted, rel.2, true, true⟩
      else
        ⟨.ok (), rel.2, true, true⟩

end OpiSpdkBridge

namespace OpiSpdkBridge

/-- Subsystem resource identifier used by the test suite. -/
def testSubsystemID : String := "subsystem0"

/-- Canonical subsystem resource name used by the test suite. -/
def testSubsystemName : String := resourceIDToVolumeName testSubsystemID

/-- Subsystem fixture mirroring the testSubsystem of the test suite. -/
def testSubsystem : NvmeSubsystem :=
  { name := testSubsystemName, nqn := "nqn.2022-09.io.spdk:opi2" }

/-- Controller resource identifier used by the test suite. -/
def testNvmeControllerID : String := "nvme-43"

/-- Canonical controller resource name used by the test suite. -/
def testNvmeControllerName : String := resourceIDToVolumeName testNvmeControllerID

/-- Controller payload mirroring the one of testCreateNvmeControllerRequest. -/
def testNvmeController : NvmeController :=
  { name := ""
    spec := { subsystemId := some testSubsystemName
              pcieId := some { physicalFunction := 43, virtualFunction := 0 }
              nvmeControllerId := 43 }
    status := { active := true } }

/-- Attach request fixture mirroring testCreateNvmeControllerRequest. -/
def testCreateNvmeControllerRequest : CreateNvmeControllerRequest :=
  { nvmeControllerId := testNvmeControllerID, nvmeController := testNvmeController }

/-- Attach request fixture with physical function 1, mirroring the test case
of a valid creation on the first bus location and the passthrough scenario. -/
def testCreateRequestPf1 : CreateNvmeControllerRequest :=
  { nvmeControllerId := testNvmeControllerID
    nvmeController :=
      { name := ""
        spec := { subsystemId := some testSubsystemName
                  pcieId := some { physicalFunction := 1, virtualFunction := 0 }
                  nvmeControllerId := 43 }
        status := { active := true } } }

/-- Attach environment fixture: the test subsystem registered, no configured
buses, every external collaborator succeeding. -/
def testAttachEnv : AttachEnv :=
  { subsystems := [(testSubsystemName, testSubsystem)]
    buses := []
    spdkOk := true
    monitorOk := true
    addDeviceOk := true }

/-- Detach environment fixture: the test controller registered, every
external collaborator succeeding. -/
def testDetachEnv : DetachEnv :=
  { controllers := [(testNvmeControllerName, testNvmeController)]
    monitorOk := true
    deleteDeviceOk := true
    spdkOk := true }

end OpiSpdkBridge

namespace OpiSpdkBridge

/-- Expected response controller of a successful attach of the test request,
mirroring the expectNotNilOut record of the test suite. -/
def expectedTestNvmeController : NvmeController :=
  { name := testNvmeControllerName
    spec := { subsystemId := some testSubsystemName
              pcieId := some { physicalFunction := 43, virtualFunction := 0 }
              nvmeControllerId := -1 }
    status := { active := true } }

end OpiSpdkBridge

namespace OpiSpdkBridge

theorem allocateAddress_error_eq (buses : List String) (pf vf : Int) (e : KvmError)
    (h : allocateAddress buses pf vf = .error e) : e = .deviceEndpoint := by
  unfold allocateAddress at h
  split at h
  · simp_all
  · split at h
    · simp_all
    · split at h <;> simp_all

theorem createController_cases (env : AttachEnv) (req : CreateNvmeControllerRequest) (dir : DirState) :
    createController env req dir = ⟨.error .invalidSubsystem, dir, false, false⟩ ∨
    createController env req dir = ⟨.error .noPcieEndpoint, dir, false, false⟩ ∨
    createController env req dir = ⟨.error .deviceEndpoint, dir, false, false⟩ ∨
    (dirExists dir = true ∧ createController env req dir = ⟨.error .failedToCreateNvmeDir, dir, false, false⟩) ∨
    createController env req dir = ⟨.error .stub, .absent, false, false⟩ ∨
    createController env req dir = ⟨.error .monitorCreation, .absent, false, false⟩ ∨
    createController env req dir = ⟨.error .addDeviceFailed, .absent, true, true⟩ ∨
    createController env req dir =
      ⟨.ok ⟨resourceIDToVolumeName req.nvmeControllerId,
            { req.nvmeController.spec with nvmeControllerId := -1 }, ⟨true⟩⟩, .empty, true, true⟩ := by
  unfold createController
  split
  · simp
  · split
    · simp
    · split
      · simp
      · split
        · rename_i e he
          have he2 := allocateAddress_error_eq _ _ _ _ he
          subst he2
          simp
        · split
          · rename_i hd
            simp [hd]
          · split
            · simp
            · split
              · simp
              · split
                · simp
                · simp

theorem createController_reaches_dir (env : AttachEnv) (req : CreateNvmeControllerRequest)
    (dir : DirState) (s : String) (sub : NvmeSubsystem) (pcie : PciEndpoint) (loc : DeviceLocation)
    (hs : req.nvmeController.spec.subsystemId = some s)
    (hl : lookupStore env.subsystems s = some sub)
    (hp : req.nvmeController.spec.pcieId = some pcie)
    (ha : allocateAddress env.buses pcie.physicalFunction pcie.virtualFunction = .ok loc)
    (hd : dirExists dir = true) :
    createController env req dir = ⟨.error .failedToCreateNvmeDir, dir, false, false⟩ := by
  unfold createController
  simp only [hs, hl, hp, ha]
  simp [hd]

/-- Claim C1: every attach failure at or after the directory-reservation step,
namely a storage-engine failure, a monitor-session open failure or a
hypervisor AddDevice rejection, leaves the controller directory of the
subsystem absent after the call returns. -/
theorem createController_rollback_on_failure (env : AttachEnv)
    (req : CreateNvmeControllerRequest) (dir : DirState) (e : KvmError)
    (hres : (createController env req dir).result = .error e)
    (he : e = .stub ∨ e = .monitorCreation ∨ e = .addDeviceFailed) :
    dirExists (createController env req dir).dirAfter = false := by
  rcases createController_cases env req dir with h | h | h | ⟨hd, h⟩ | h | h | h | h <;>
    rw [h] at hres ⊢ <;>
    rcases he with rfl | rfl | rfl <;>
    simp_all [dirExists]

theorem createController_rollback_on_failure_witness :
    dirExists (createController { testAttachEnv with monitorOk := false }
      testCreateNvmeControllerRequest .absent).dirAfter = false :=
  createController_rollback_on_failure { testAttachEnv with monitorOk := false }
    testCreateNvmeControllerRequest .absent .monitorCreation (by decide) (by decide)

/-- Claim C2: given a known controller, an existing directory and a monitor
session that opens, the detach outcome is classified three ways: both the
hypervisor DeleteDevice and the storage-engine unregistration failing gives
DeviceNotDeleted, exactly one side failing or a non-empty directory gives
DevicePartiallyDeleted, and DeleteDevice succeeding with the storage engine
agreeing and a clean directory release gives a bare success. -/
theorem deleteController_classification (env : DetachEnv) (name : String) (dir : DirState)
    (c : NvmeController) (hc : lookupStore env.controllers name = some c)
    (hd : dirExists dir = true) (hm : env.monitorOk = true) :
    ((env.deleteDeviceOk = false ∧ env.spdkOk = false) →
      (deleteController env name dir).result = .error .deviceNotDeleted) ∧
    ((env.deleteDeviceOk ≠ env.spdkOk ∨
        (env.deleteDeviceOk = true ∧ env.spdkOk = true ∧ dir = .nonEmpty)) →
      (deleteController env name dir).result = .error .devicePartiallyDeleted) ∧
    ((env.deleteDeviceOk = true ∧ env.spdkOk = true ∧ dir = .empty) →
      (deleteController env name dir).result = .ok ()) := by
  unfold deleteController
  rw [hc]
  cases dir <;>
    cases hdd : env.deleteDeviceOk <;>
    cases hsp : env.spdkOk <;>
    simp_all [dirExists, releaseDir]

theorem deleteController_classification_witness :
    (deleteController { testDetachEnv with deleteDeviceOk := false, spdkOk := false }
      testNvmeControllerName .nonEmpty).result = .error .deviceNotDeleted :=
  (deleteController_classification
    { testDetachEnv with deleteDeviceOk := false, spdkOk := false }
    testNvmeControllerName .nonEmpty testNvmeController
    (by decide) (by decide) (by decide)).1 ⟨rfl, rfl⟩

/-- Claim C3: for a non-empty bus list and a physical function pf with
0 ≤ pf < 32 times the number of buses, the bus allocator answers the device
address made of bus pf / 32 and slot pf % 32. -/
theorem allocateAddress_nonempty_in_range (buses : List String) (pf vf : Int)
    (hne : buses ≠ []) (h0 : 0 ≤ pf) (hlt : pf < 32 * buses.length) :
    allocateAddress buses pf vf = .ok (.busSlot (buses.getD (pf / 32).toNat "") (pf % 32)) := by
  unfold allocateAddress
  have h1 : ¬ pf < 0 := by omega
  have h2 : ¬ buses.length = 0 := by
    intro hz
    exact hne (List.length_eq_zero.mp hz)
  have h3 : (pf / 32).toNat < buses.length := by omega
  simp [h1, h2, h3]

theorem allocateAddress_nonempty_in_range_witness :
    allocateAddress ["pci.opi.0", "pci.opi.1"] 43 0 = .ok (.busSlot "pci.opi.1" 11) ∧
    allocateAddress ["pci.opi.0", "pci.opi.1"] 1 0 = .ok (.busSlot "pci.opi.0" 1) := by
  have h1 := allocateAddress_nonempty_in_range ["pci.opi.0", "pci.opi.1"] 43 0
    (by decide) (by decide) (by decide)
  have h2 := allocateAddress_nonempty_in_range ["pci.opi.0", "pci.opi.1"] 1 0
    (by decide) (by decide) (by decide)
  exact ⟨h1, h2⟩

end OpiSpdkBridge

namespace OpiSpdkBridge

/-- Claim C4: with no configured buses the allocator passes the (pf, vf)
pair through unchanged as the hypervisor device address for every pf ≥ 0 and
vf ≥ 0, and a valid attach in that mode succeeds with the directory existing
afterwards. -/
theorem allocateAddress_empty_passthrough (pf vf : Int) (hpf : 0 ≤ pf) (_hvf : 0 ≤ vf) :
    allocateAddress [] pf vf = .ok (.passthrough pf vf) ∧
    ∀ (env : AttachEnv) (req : CreateNvmeControllerRequest) (s : String) (sub : NvmeSubsystem),
      env.buses = [] → env.spdkOk = true → env.monitorOk = true → env.addDeviceOk = true →
      req.nvmeController.spec.subsystemId = some s →
      lookupStore env.subsystems s = some sub →
      req.nvmeController.spec.pcieId = some ⟨pf, vf⟩ →
      (∃ c, (createController env req .absent).result = .ok c) ∧
      dirExists (createController env req .absent).dirAfter = true := by
  have hpass : allocateAddress [] pf vf = .ok (.passthrough pf vf) := by
    unfold allocateAddress
    have h1 : ¬ pf < 0 := by omega
    simp [h1]
  refine ⟨hpass, ?_⟩
  intro env req s sub hb hsp hm hadd hs hl hp
  have hall : allocateAddress env.buses pf vf = .ok (.passthrough pf vf) := by
    rw [hb]
    exact hpass
  unfold createController
  simp only [hs, hl, hp]
  simp [hall, hsp, hm, hadd, dirExists]

theorem allocateAddress_empty_passthrough_witness :
    allocateAddress [] 1 0 = .ok (.passthrough 1 0) ∧
    (∃ c, (createController testAttachEnv testCreateRequestPf1 .absent).result = .ok c) ∧
    dirExists (createController testAttachEnv testCreateRequestPf1 .absent).dirAfter = true := by
  have h := allocateAddress_empty_passthrough 1 0 (by decide) (by decide)
  exact ⟨h.1, h.2 testAttachEnv testCreateRequestPf1 testSubsystemName testSubsystem
    rfl rfl rfl rfl rfl (by decide) rfl⟩

/-- Claim C5: the bus allocator fails with InvalidEndpoint for every negative
physical function and, when buses are configured, for every physical function
at or beyond 32 times the bus count; an attach whose request carries such an
endpoint performs no side effects: the directory state is unchanged, no
monitor session is opened and no AddDevice command is issued. -/
theorem allocateAddress_out_of_range (buses : List String) (pf vf : Int)
    (h : pf < 0 ∨ (buses ≠ [] ∧ 32 * buses.length ≤ pf)) :
    allocateAddress buses pf vf = .error .deviceEndpoint ∧
    ∀ (env : AttachEnv) (req : CreateNvmeControllerRequest) (dir : DirState),
      env.buses = buses →
      req.nvmeController.spec.pcieId = some ⟨pf, vf⟩ →
      (createController env req dir).dirAfter = dir ∧
      (createController env req dir).monitorOpened = false ∧
      (createController env req dir).addDeviceCalled = false := by
  have herr : allocateAddress buses pf vf = .error .deviceEndpoint := by
    unfold allocateAddress
    rcases h with h | ⟨hne, hge⟩
    · simp [h]
    · have h1 : ¬ pf < 0 := by omega
      have h2 : ¬ buses.length = 0 := by
        intro hz
        exact hne (List.length_eq_zero.mp hz)
      have h3 : ¬ (pf / 32).toNat < buses.length := by omega
      simp [h1, h2, h3]
  refine ⟨herr, ?_⟩
  intro env req dir hb hp
  have hall : allocateAddress env.buses pf vf = .error .deviceEndpoint := by
    rw [hb]
    exact herr
  unfold createController
  cases hsub : req.nvmeController.spec.subsystemId with
  | none => simp
  | some s =>
    cases hl : lookupStore env.subsystems s with
    | none => simp [hl]
    | some sub =>
      simp only [hl, hp]
      simp [hall]

theorem allocateAddress_out_of_range_witness :
    allocateAddress ["pci.opi.0"] 43 0 = .error .deviceEndpoint ∧
    (createController { testAttachEnv with buses := ["pci.opi.0"] }
        testCreateNvmeControllerRequest .absent).dirAfter = .absent ∧
    (createController { testAttachEnv with buses := ["pci.opi.0"] }
        testCreateNvmeControllerRequest .absent).monitorOpened = false ∧
    (createController { testAttachEnv with buses := ["pci.opi.0"] }
        testCreateNvmeControllerRequest .absent).addDeviceCalled = false := by
  have h := allocateAddress_out_of_range ["pci.opi.0"] 43 0
    (Or.inr ⟨by decide, by decide⟩)
  exact ⟨h.1, h.2 { testAttachEnv with buses := ["pci.opi.0"] }
    testCreateNvmeControllerRequest .absent rfl rfl⟩

/-- Claim C6: when the controller directory already exists at attach time on
an otherwise valid request, the call fails with DirConflict and mutates
nothing, the directory still existing; hence attaching twice in a row for
the same subsystem without an intervening successful detach gives a success
and then DirConflict. -/
theorem createController_dir_conflict (env : AttachEnv) (req : CreateNvmeControllerRequest)
    (dir : DirState) (s : String) (sub : NvmeSubsystem) (pcie : PciEndpoint) (loc : DeviceLocation)
    (hs : req.nvmeController.spec.subsystemId = some s)
    (hl : lookupStore env.subsystems s = some sub)
    (hp : req.nvmeController.spec.pcieId = some pcie)
    (ha : allocateAddress env.buses pcie.physicalFunction pcie.virtualFunction = .ok loc)
    (hd : dirExists dir = true) :
    createController env req dir = ⟨.error .failedToCreateNvmeDir, dir, false, false⟩ ∧
    ∀ c, (createController env req .absent).result = .ok c →
      (createController env req ((createController env req .absent).dirAfter)).result =
        .error .failedToCreateNvmeDir := by
  refine ⟨createController_reaches_dir env req dir s sub pcie loc hs hl hp ha hd, ?_⟩
  intro c hc
  have hdir : dirExists (createController env req .absent).dirAfter = true := by
    rcases createController_cases env req .absent with h1 | h1 | h1 | ⟨_, h1⟩ | h1 | h1 | h1 | h1 <;>
      rw [h1] at hc ⊢ <;> simp_all [dirExists]
  have h2 := createController_reaches_dir env req ((createController env req .absent).dirAfter)
    s sub pcie loc hs hl hp ha hdir
  rw [h2]

theorem createController_dir_conflict_witness :
    createController testAttachEnv testCreateNvmeControllerRequest .empty =
      ⟨.error .failedToCreateNvmeDir, .empty, false, false⟩ ∧
    (createController testAttachEnv testCreateNvmeControllerRequest
        ((createController testAttachEnv testCreateNvmeControllerRequest .absent).dirAfter)).result =
      .error .failedToCreateNvmeDir := by
  have h := createController_dir_conflict testAttachEnv testCreateNvmeControllerRequest .empty
    testSubsystemName testSubsystem { physicalFunction := 43, virtualFunction := 0 }
    (.passthrough 43 0) rfl (by decide) rfl (by decide) (by decide)
  exact ⟨h.1, h.2
    { name := testNvmeControllerName
      spec := { subsystemId := some testSubsystemName
                pcieId := some { physicalFunction := 43, virtualFunction := 0 }
                nvmeControllerId := -1 }
      status := { active := true } } (by decide)⟩

/-- Claim C7: detach on a known controller whose directory does not exist
succeeds immediately as an idempotent no-op: the result is a success rather
than an error, the directory state is unchanged, and neither a monitor
session is opened nor a DeleteDevice command issued. -/
theorem deleteController_absent_dir_noop (env : DetachEnv) (name : String) (dir : DirState)
    (c : NvmeController) (hc : lookupStore env.controllers name = some c)
    (hd : dirExists dir = false) :
    deleteController env name dir = ⟨.ok (), dir, false, false⟩ := by
  unfold deleteController
  simp only [hc]
  simp [hd]

theorem deleteController_absent_dir_noop_witness :
    deleteController testDetachEnv testNvmeControllerName .absent =
      ⟨.ok (), .absent, false, false⟩ :=
  deleteController_absent_dir_noop testDetachEnv testNvmeControllerName .absent
    testNvmeController (by decide) (by decide)

/-- Claim C8: every successful attach answers a controller record carrying
the caller-supplied spec with the host-assigned controller id forced to the
unset sentinel -1 regardless of the requested value, an Active status, and
the canonical resource name; the directory still exists after the call as
the steady-state attached marker. -/
theorem createController_success_shape (env : AttachEnv)
    (req : CreateNvmeControllerRequest) (dir : DirState) (c : NvmeController)
    (h : (createController env req dir).result = .ok c) :
    c.name = resourceIDToVolumeName req.nvmeControllerId ∧
    c.spec = { req.nvmeController.spec with nvmeControllerId := -1 } ∧
    c.status.active = true ∧
    dirExists (createController env req dir).dirAfter = true := by
  rcases createController_cases env req dir with h1 | h1 | h1 | ⟨_, h1⟩ | h1 | h1 | h1 | h1 <;>
      rw [h1] at h ⊢
  · simp at h
  · simp at h
  · simp at h
  · simp at h
  · simp at h
  · simp at h
  · simp at h
  · have hc := Except.ok.inj h
    subst hc
    exact ⟨rfl, rfl, rfl, rfl⟩

theorem createController_success_shape_witness :
    expectedTestNvmeController.name =
      resourceIDToVolumeName testCreateNvmeControllerRequest.nvmeControllerId ∧
    expectedTestNvmeController.spec =
      { testCreateNvmeControllerRequest.nvmeController.spec with nvmeControllerId := -1 } ∧
    expectedTestNvmeController.status.active = true ∧
    dirExists (createController testAttachEnv testCreateNvmeControllerRequest .absent).dirAfter
      = true :=
  createController_success_shape testAttachEnv testCreateNvmeControllerRequest .absent
    expectedTestNvmeController (by decide)

/-- Claim C9: for every controller and NQN the listener-parameter builder
computes parameters whose transport type is the fixed local-socket transport
vfiouser and whose target address is the filesystem join of the configured
base directory with the subsystem resource identifier. -/
theorem vfiouserSubsystemListener_params_shape (l : VfiouserSubsystemListener)
    (c : NvmeController) (nqn : String) :
    (l.params c nqn).listenAddress.trtype = "vfiouser" ∧
    (l.params c nqn).listenAddress.traddr =
      filepathJoin l.ctrlrDir c.subsystemResourceID ∧
    (l.params c nqn).nqn = nqn :=
  ⟨rfl, rfl, rfl⟩

/-- Claim C10: detach with a controller name absent from the resource store
fails with NoController and leaves all state untouched: the directory state,
even an existing one, is unchanged and no monitor command is issued. -/
theorem deleteController_no_controller (env : DetachEnv) (name : String) (dir : DirState)
    (hc : lookupStore env.controllers name = none) :
    deleteController env name dir = ⟨.error .noController, dir, false, false⟩ := by
  unfold deleteController
  simp only [hc]

theorem deleteController_no_controller_witness :
    deleteController { testDetachEnv with controllers := [] } testNvmeControllerName .nonEmpty =
      ⟨.error .noController, .nonEmpty, false, false⟩ :=
  deleteController_no_controller { testDetachEnv with controllers := [] }
    testNvmeControllerName .nonEmpty (by decide)

end OpiSpdkBridge
